import Mathlib

/-!
Verification of the authentication / session-guard and reporting logic of the
retail sales dashboard (`src/data-v9.py`), as a shallow embedding.

The Streamlit session dictionary is modelled as an explicit `SessionState`
record threaded through the functions; URL query parameters become a
`QueryParams` record; wall-clock time (`time.time()`) is a rational number of
seconds; purchase dates are integers (days).  The bcrypt `checkpw` call is an
oracle `Verifier` whose result is either a boolean or a raised exception
(`VerifyResult.error`), matching the `try/except` in `verify_password`.
-/

namespace DataAnalysis

/-- Outcome of the underlying `bcrypt.checkpw(password, hashed)` call:
a boolean answer, or a raised exception (e.g. a malformed stored hash). -/
inductive VerifyResult where
  | ok : Bool → VerifyResult
  | error : VerifyResult
deriving DecidableEq

/-- The low-level hash comparison routine, abstracted as an oracle from
(stored hash, input password) to a `VerifyResult`. -/
def Verifier : Type := String → String → VerifyResult

/-- One record of `users_db`: password hash, role and display name. -/
structure UserRecord where
  password_hash : String
  role : String
  name : String
deriving DecidableEq

/-- The static credential store `users_db` of `src/data-v9.py` (lines 39-50),
as an association list keyed by username. -/
def users_db : List (String × UserRecord) :=
  [("admin", ⟨"$2b$12$E3EHW5qw51z49OOz2ukqe.G907YBxJAcPhRupamEb3DNuGLg162Am",
              "admin", "系统管理员"⟩),
   ("guest", ⟨"$2b$12$Yrq2EGj4vW9EQ/Rdg3WqZeilyV8G7dRNGqzyyVOm/sHjdXNHl2o3a",
              "guest", "访客用户"⟩)]

/-- `verify_password(stored_hash, input_password)` (lines 29-36): calls the
bcrypt oracle; an exception is caught and turned into `false`. -/
def verify_password (v : Verifier) (stored_hash input_password : String) : Bool :=
  match v stored_hash input_password with
  | .ok b => b
  | .error => false

/-- `authenticate(username, password)` (lines 53-57): looks the username up in
`users_db`; if present, defers to `verify_password` on the stored hash,
otherwise returns `false` without consulting the oracle. -/
def authenticate (v : Verifier) (username password : String) : Bool :=
  match users_db.lookup username with
  | some record => verify_password v record.password_hash password
  | none => false

/-- The relevant keys of Streamlit's `st.session_state` dictionary: a missing
key is `none`.  `last_activity` is a timestamp in seconds. -/
structure SessionState where
  authenticated : Bool
  username : Option String
  role : Option String
  auth_token : Option String
  last_activity : Option ℚ
deriving DecidableEq

/-- The `auth` and `user` URL query parameters carried by the page address. -/
structure QueryParams where
  auth : Option String
  user : Option String
deriving DecidableEq

/-- `check_session()` (lines 61-79): reads the `auth`/`user` query parameters;
requires the username to be a key of `users_db`, the presented token to equal
the stored `session_state["auth_token"]`, and the idle gap
`now - session_state.get("last_activity", 0)` to be under 1800 seconds, in
which case `last_activity` is refreshed to `now`.  Returns the boolean result
together with the (possibly updated) session state. -/
def check_session (qp : QueryParams) (st : SessionState) (now : ℚ) :
    Bool × SessionState :=
  match qp.auth, qp.user with
  | some auth_token, some username =>
    if (users_db.lookup username).isSome then
      match st.auth_token with
      | some stored_token =>
        if stored_token = auth_token then
          if now - st.last_activity.getD 0 < 1800 then
            (true, { st with last_activity := some now })
          else
            (false, st)
        else (false, st)
      | none => (false, st)
    else (false, st)
  | _, _ => (false, st)

/-- The logout branch of `main_app()` (lines 440-444): sets
`authenticated := False` and pops `username` and `role`.  The keys
`auth_token` and `last_activity` are left untouched, as in the source. -/
def logout (st : SessionState) : SessionState :=
  { st with authenticated := false, username := none, role := none }

/-- The submit branch of the login form in `login_page()` (lines 115-133):
an empty username or password is rejected before `authenticate` is consulted;
on successful authentication the session keys and the `auth`/`user` URL
parameters are written (the token is `f"{username}_{time.time()}"`); on failed
authentication only an error message is shown. -/
def login_submit (v : Verifier) (username password : String)
    (st : SessionState) (qp : QueryParams) (now : ℚ) :
    SessionState × QueryParams :=
  if username = "" ∨ password = "" then
    (st, qp)
  else if authenticate v username password then
    let auth_token := username ++ "_" ++ toString now
    ({ authenticated := true,
       username := some username,
       role := (users_db.lookup username).map UserRecord.role,
       auth_token := some auth_token,
       last_activity := some now },
     { auth := some auth_token, user := some username })
  else
    (st, qp)

/-- One row of the sales table after `load_data` (lines 137-147): one line
item.  Purchase dates are integers (days), money amounts are rationals.  The
rows of a customer are assumed sorted by purchase date, as `load_data` sorts
by (customer id, purchase date). -/
structure SaleRow where
  customer_id : String
  customer_name : String
  product_id : String
  product_name : String
  region : String
  purchase_date : ℤ
  unit_price : ℚ
  quantity : ℚ
  freight : ℚ
  total_price : ℚ
deriving DecidableEq

/-- The sidebar date-range filter (line 176): keeps rows with
`start_date ≤ purchase_date ≤ end_date`, both bounds inclusive. -/
def filter_by_date (df : List SaleRow) (start_date end_date : ℤ) : List SaleRow :=
  df.filter fun r =>
    decide (start_date ≤ r.purchase_date) && decide (r.purchase_date ≤ end_date)

/-- Overview total revenue `df['总价'].sum()` (line 191). -/
def total_sales (df : List SaleRow) : ℚ :=
  (df.map SaleRow.total_price).sum

/-- Geography view per-region revenue: the `总价` sum of the group of `r` in
`df.groupby('区域')` (lines 322-326). -/
def region_sales (df : List SaleRow) (r : String) : ℚ :=
  ((df.filter fun x => decide (x.region = r)).map SaleRow.total_price).sum

/-- The distinct regions appearing in the table: the group keys of
`df.groupby('区域')`. -/
def regions (df : List SaleRow) : Finset String :=
  (df.map SaleRow.region).toFinset

/-- C5 (rows): the per-row interval series of the purchase-behavior view
(lines 260-262): `购买日期 - 购买日期.shift(1)` over the customer's rows, one
value per consecutive pair of ROWS (the first row's NaN is dropped by the
`[1:]` slice feeding the chart). -/
def row_intervals (dates : List ℤ) : List ℤ :=
  List.zipWith (fun cur prev => cur - prev) dates.tail dates

/-- C5 (spec reading): one interval per consecutive pair of DISTINCT purchase
dates, i.e. the consecutive differences after removing duplicate dates. -/
def distinct_date_intervals (dates : List ℤ) : List ℤ :=
  row_intervals dates.dedup

/-- One row of `customer_purchases` (lines 252-256): a (customer, date) order
with the list of product names bought in it. -/
structure OrderRow where
  customer_id : String
  customer_name : String
  purchase_date : ℤ
  products : List String
deriving DecidableEq

/-- One output row of `compare_products` (lines 280-299): the order's own
fields plus the four comparison columns, `none` when uninitialized (the first
order). -/
structure CompareRow where
  purchase_date : ℤ
  products : List String
  prev_products : Option (List String)
  added : Option (Finset String)
  dropped : Option (Finset String)
  unchanged : Option (Finset String)
deriving DecidableEq

/-- The body of the loop in `compare_products`: row `i` compared against row
`i-1` (`none` for the first row, whose comparison columns stay `None`).
Python's `set(...)` difference/intersection become `Finset` operations on the
deduplicated product names. -/
def mk_compare_row (prev : Option OrderRow) (cur : OrderRow) : CompareRow :=
  match prev with
  | none => ⟨cur.purchase_date, cur.products, none, none, none, none⟩
  | some p =>
    ⟨cur.purchase_date, cur.products, some p.products,
      some (cur.products.toFinset \ p.products.toFinset),
      some (p.products.toFinset \ cur.products.toFinset),
      some (cur.products.toFinset ∩ p.products.toFinset)⟩

/-- The loop of `compare_products` over the date-sorted orders of one
customer, threading the previous row. -/
def compare_aux (prev : Option OrderRow) : List OrderRow → List CompareRow
  | [] => []
  | cur :: rest => mk_compare_row prev cur :: compare_aux (some cur) rest

/-- `compare_products(group)` (lines 280-299) applied to the date-sorted
orders of one customer: the first row keeps `None` comparison columns; every
later row is compared with its predecessor. -/
def compare_products (orders : List OrderRow) : List CompareRow :=
  compare_aux none orders

/-- `final_result` (line 305): keep only rows with a non-null `上次的产品`
column, i.e. drop each customer's first order. -/
def final_result (orders : List OrderRow) : List CompareRow :=
  (compare_products orders).filter fun r => r.prev_products.isSome

/-- Modelled from the spec: the support computed by the external
`mlxtend.frequent_patterns.apriori` collaborator, which is not part of this
repository.  Per the spec glossary, the support of an itemset is the fraction
of transactions (orders) containing it. -/
def support (transactions : List (Finset String)) (s : Finset String) : ℚ :=
  (transactions.countP fun t => decide (s ⊆ t)) / transactions.length

/-- All items occurring in some transaction (the columns produced by
`TransactionEncoder`, lines 414-416). -/
def item_universe (transactions : List (Finset String)) : Finset String :=
  transactions.foldr (fun t u => t ∪ u) ∅

/-- Modelled from the spec: the external `apriori` call of line 420, which is
not part of this repository.  Per the spec glossary, it returns every
nonempty itemset over the transaction items whose support meets or exceeds
the minimum support threshold (mlxtend uses an inclusive `>=`). -/
def apriori (transactions : List (Finset String)) (min_support : ℚ) :
    Finset (Finset String) :=
  (item_universe transactions).powerset.filter
    fun s => s.Nonempty ∧ min_support ≤ support transactions s

/-- Number of non-overlapping occurrences of the separator `", "` in a list
of characters, scanned left to right (the separator cannot overlap itself). -/
def sep_count : List Char → ℕ
  | ',' :: ' ' :: rest => sep_count rest + 1
  | _ :: rest => sep_count rest
  | [] => 0

/-- Python's `len(x.split(', '))` (line 424): one more than the number of
non-overlapping occurrences of `", "` in the string. -/
def py_split_len (s : String) : ℕ :=
  sep_count s.toList + 1

/-- The display string of an itemset, `', '.join(list(x))` (line 423); the
arbitrary iteration order of the Python frozenset is fixed to the sorted
order (the subsequent length computation is order-insensitive for singleton
itemsets, the only case the claims depend on). -/
def itemset_label (s : Finset String) : String :=
  String.intercalate ", " (s.sort (fun a b => a ≤ b))

/-- The `length` column of line 424: computed from the joined label by
splitting on `", "` again, NOT from the itemset itself. -/
def itemset_length (s : Finset String) : ℕ :=
  py_split_len (itemset_label s)

/-- The display filter of line 429: an itemset row is shown exactly when its
computed `length` column exceeds 1. -/
def displayed (s : Finset String) : Bool :=
  decide (1 < itemset_length s)

/-- C1: after the logout action, the session is NOT invalid: the logout branch
pops only `username` and `role`, leaving `auth_token` (and `last_activity`) in
the session state, so a subsequent `check_session` presenting the previously
issued (token, username) pair still returns `true` within the idle window.
Evaluated at a concrete failing input: an admin session with token
`admin_1000` and last activity at t = 1000 is logged out, yet `check_session`
at t = 1001 with the old pair succeeds, contradicting the claim. -/
theorem logout_keeps_session_valid :
    (logout ⟨true, some "admin", some "admin", some "admin_1000", some 1000⟩).auth_token
      = some "admin_1000" ∧
    (check_session ⟨some "admin_1000", some "admin"⟩
      (logout ⟨true, some "admin", some "admin", some "admin_1000", some 1000⟩) 1001).1
      = true := by
  constructor
  · rfl
  · simp [check_session, logout, users_db]
    norm_num

/-- C2: for a session whose stored token matches the presented token and whose
username is a key of `users_db`, `check_session` returns `true` exactly when
`now - last_activity < 1800`, refreshing `last_activity := now`; when
`now - last_activity ≥ 1800` it returns `false` and leaves the state
unchanged. -/
theorem check_session_idle_boundary (tok u : String) (st : SessionState)
    (now la : ℚ) (hu : (users_db.lookup u).isSome = true)
    (htok : st.auth_token = some tok) (hla : st.last_activity = some la) :
    (now - la < 1800 →
      check_session ⟨some tok, some u⟩ st now
        = (true, { st with last_activity := some now })) ∧
    (1800 ≤ now - la →
      check_session ⟨some tok, some u⟩ st now = (false, st)) := by
  unfold check_session
  simp [hu, htok, hla]

/-- Witness for C2 at a concrete session: fresh at a 1-second gap, expired at
exactly an 1800-second gap. -/
theorem check_session_idle_boundary_witness :
    check_session ⟨some "t", some "admin"⟩ ⟨true, some "admin", some "admin", some "t", some 0⟩ 1
      = (true, ⟨true, some "admin", some "admin", some "t", some 1⟩) ∧
    check_session ⟨some "t", some "admin"⟩ ⟨true, some "admin", some "admin", some "t", some 0⟩ 1800
      = (false, ⟨true, some "admin", some "admin", some "t", some 0⟩) :=
  ⟨(check_session_idle_boundary "t" "admin" _ 1 0 rfl rfl rfl).1 (by norm_num),
   (check_session_idle_boundary "t" "admin" _ 1800 0 rfl rfl rfl).2 (by norm_num)⟩

/-- C3: `authenticate` fails closed.  (a) An unknown username yields `false`;
(c) the result then depends neither on the oracle nor on the password, so the
hash-verification routine is never invoked; (b) a malformed stored hash (the
oracle raises) yields `false` instead of propagating; (d) the boolean result
never distinguishes an unknown username from a wrong password (or a malformed
hash) — both produce the same `false`. -/
theorem authenticate_fails_closed (v : Verifier) (u p : String) :
    (users_db.lookup u = none → authenticate v u p = false) ∧
    (∀ r, users_db.lookup u = some r → v r.password_hash p = .error →
      authenticate v u p = false) ∧
    (users_db.lookup u = none → ∀ v₂ p₂, authenticate v u p = authenticate v₂ u p₂) ∧
    (∀ u₂ r₂ p₂, users_db.lookup u = none → users_db.lookup u₂ = some r₂ →
      (v r₂.password_hash p₂ = .ok false ∨ v r₂.password_hash p₂ = .error) →
      authenticate v u p = authenticate v u₂ p₂) := by
  refine ⟨?_, ?_, ?_, ?_⟩
  · intro h; unfold authenticate; simp [h]
  · intro r hr he; unfold authenticate verify_password; simp [hr, he]
  · intro h v₂ p₂; unfold authenticate; simp [h]
  · intro u₂ r₂ p₂ h h₂ hv
    unfold authenticate verify_password
    rcases hv with hv | hv <;> simp [h, h₂, hv]

/-- Witness for C3: with an always-raising oracle, an unknown user and the
known user `admin` (malformed-hash path) both authenticate to `false`. -/
theorem authenticate_fails_closed_witness :
    authenticate (fun _ _ => .error) "nobody" "pw" = false ∧
    authenticate (fun _ _ => .error) "admin" "pw" = false :=
  ⟨(authenticate_fails_closed (fun _ _ => .error) "nobody" "pw").1 rfl,
   (authenticate_fails_closed (fun _ _ => .error) "admin" "pw").2.1 _ rfl rfl⟩

/-- C4: `check_session` never consults the session's stored username: for any
username `u` that is a key of `users_db`, presenting the stored token together
with `u` is accepted within the idle window, and the outcome is the same for
every value of the stored `username` field. -/
theorem check_session_ignores_session_username (tok u : String)
    (st : SessionState) (now la : ℚ) (hu : (users_db.lookup u).isSome = true)
    (htok : st.auth_token = some tok) (hla : st.last_activity = some la)
    (hfresh : now - la < 1800) :
    (check_session ⟨some tok, some u⟩ st now).1 = true ∧
    (∀ w : Option String,
      check_session ⟨some tok, some u⟩ { st with username := w } now
        = (true, { st with username := w, last_activity := some now })) := by
  constructor
  · unfold check_session; simp [hu, htok, hla, hfresh]
  · intro w; unfold check_session; simp [hu, htok, hla, hfresh]

/-- Witness for C4: a session created by `admin` (stored username `admin`,
token `t`) accepts the pair (`t`, `guest`). -/
theorem check_session_ignores_session_username_witness :
    (check_session ⟨some "t", some "guest"⟩
      ⟨true, some "admin", some "admin", some "t", some 0⟩ 1).1 = true :=
  (check_session_ignores_session_username "t" "guest"
    ⟨true, some "admin", some "admin", some "t", some 0⟩ 1 0 rfl rfl rfl
    (by norm_num)).1

/-- C10: a failed login attempt leaves the session state and URL parameters
unchanged: with an empty username or password the state is returned as-is and
`authenticate` is never invoked (the outcome is oracle-independent), and when
`authenticate` returns `false` no session field and no query parameter is
written. -/
theorem failed_login_preserves_session (v v₂ : Verifier) (u p : String)
    (st : SessionState) (qp : QueryParams) (now : ℚ) :
    (u = "" ∨ p = "" →
      login_submit v u p st qp now = (st, qp) ∧
      login_submit v u p st qp now = login_submit v₂ u p st qp now) ∧
    (authenticate v u p = false → login_submit v u p st qp now = (st, qp)) := by
  constructor
  · intro h
    constructor <;> · unfold login_submit; simp [h]
  · intro h
    unfold login_submit
    split
    · rfl
    · simp [h]

/-- Witness for C10: a wrong password for `admin` (oracle answers `false`)
and an empty username both leave a concrete session state untouched. -/
theorem failed_login_preserves_session_witness :
    login_submit (fun _ _ => .ok false) "admin" "pw"
      ⟨false, none, none, none, none⟩ ⟨none, none⟩ 5
      = (⟨false, none, none, none, none⟩, ⟨none, none⟩) ∧
    login_submit (fun _ _ => .ok false) "" "pw"
      ⟨false, none, none, none, none⟩ ⟨none, none⟩ 5
      = (⟨false, none, none, none, none⟩, ⟨none, none⟩) :=
  ⟨(failed_login_preserves_session (fun _ _ => .ok false) (fun _ _ => .ok false)
      "admin" "pw" _ _ 5).2 rfl,
   ((failed_login_preserves_session (fun _ _ => .ok false) (fun _ _ => .ok false)
      "" "pw" _ _ 5).1 (Or.inl rfl)).1⟩

lemma region_sales_cons (x : SaleRow) (df : List SaleRow) (r : String) :
    region_sales (x :: df) r
      = (if x.region = r then x.total_price else 0) + region_sales df r := by
  unfold region_sales
  by_cases h : x.region = r <;> simp [h]

lemma sum_region_sales (df : List SaleRow) (t : Finset String)
    (ht : ∀ x ∈ df, x.region ∈ t) :
    ∑ r in t, region_sales df r = total_sales df := by
  induction df with
  | nil => simp [region_sales, total_sales]
  | cons x xs ih =>
    have hx : x.region ∈ t := ht x (by simp)
    have hxs : ∀ y ∈ xs, y.region ∈ t := fun y hy => ht y (by simp [hy])
    calc ∑ r in t, region_sales (x :: xs) r
        = ∑ r in t, ((if x.region = r then x.total_price else 0) + region_sales xs r) := by
          simp [region_sales_cons]
      _ = (∑ r in t, if x.region = r then x.total_price else 0)
            + ∑ r in t, region_sales xs r := by
          rw [Finset.sum_add_distrib]
      _ = x.total_price + total_sales xs := by
          rw [ih hxs, Finset.sum_ite_eq t x.region (fun _ => x.total_price), if_pos hx]
      _ = total_sales (x :: xs) := by simp [total_sales]

/-- C9: for every table and every inclusive date range, the per-region
revenues of the Geography view sum, over all regions occurring in the
filtered table, to the Overview total revenue of the same filtered table. -/
theorem region_revenue_additive (df : List SaleRow) (s e : ℤ) :
    ∑ r in regions (filter_by_date df s e), region_sales (filter_by_date df s e) r
      = total_sales (filter_by_date df s e) :=
  sum_region_sales _ _ (fun _ hx => List.mem_toFinset.mpr (List.mem_map_of_mem _ hx))

/-- C5 counterexample: for a customer whose sorted purchase dates are
`[0, 0, 5]` (two line items of one order on day 0, then an order on day 5),
the code reports the per-row intervals `[0, 5]`, while the consecutive
differences of the DISTINCT purchase dates are `[5]`: the reported intervals
are not one per consecutive pair of distinct order dates. -/
theorem row_intervals_cex :
    row_intervals [0, 0, 5] = [0, 5] ∧ distinct_date_intervals [0, 0, 5] = [5] ∧
    row_intervals [0, 0, 5] ≠ distinct_date_intervals [0, 0, 5] := by
  refine ⟨by decide, by decide, by decide⟩

/-- C5 (amended): the reported interval series is the difference between
consecutive ROWS of the customer's date-sorted data; when no purchase date is
repeated across rows (each order occupies a single row) this coincides with
the differences between consecutive distinct purchase dates. -/
theorem row_intervals_eq_distinct_of_nodup (dates : List ℤ) (h : dates.Nodup) :
    row_intervals dates = distinct_date_intervals dates := by
  unfold distinct_date_intervals
  rw [List.dedup_eq_self.mpr h]

/-- Witness for the amended C5 at the date list `[0, 5, 12]`. -/
theorem row_intervals_eq_distinct_witness :
    row_intervals [0, 5, 12] = distinct_date_intervals [0, 5, 12] :=
  row_intervals_eq_distinct_of_nodup [0, 5, 12] (by decide)

lemma compare_aux_get_zero (q : Option OrderRow) (orders : List OrderRow)
    (c : OrderRow) (hc : orders[0]? = some c) :
    (compare_aux q orders)[0]? = some (mk_compare_row q c) := by
  cases orders with
  | nil => simp at hc
  | cons a rest => simp at hc; subst hc; simp [compare_aux]

lemma compare_aux_get_succ (orders : List OrderRow) (q : Option OrderRow)
    (i : ℕ) (p c : OrderRow) (hp : orders[i]? = some p)
    (hc : orders[i + 1]? = some c) :
    (compare_aux q orders)[i + 1]? = some (mk_compare_row (some p) c) := by
  induction orders generalizing q i with
  | nil => simp at hp
  | cons a rest ih =>
    cases i with
    | zero =>
      simp at hp
      subst hp
      simp only [List.getElem?_cons_succ] at hc
      simp only [compare_aux, List.getElem?_cons_succ]
      exact compare_aux_get_zero (some a) rest c hc
    | succ j =>
      simp only [List.getElem?_cons_succ] at hp hc
      simp only [compare_aux, List.getElem?_cons_succ]
      exact ih (some a) j hp hc

/-- C6: in `compare_products` over a customer's date-sorted orders, every row
`i + 1` reports added products = current minus previous product set, dropped
products = previous minus current, unchanged products = their intersection;
the first row keeps all comparison columns `None` and only rows with a
non-null previous-products column survive into `final_result`. -/
theorem compare_products_set_diffs (orders : List OrderRow) (i : ℕ)
    (p c : OrderRow) (hp : orders[i]? = some p) (hc : orders[i + 1]? = some c) :
    (compare_products orders)[i + 1]?
      = some ⟨c.purchase_date, c.products, some p.products,
          some (c.products.toFinset \ p.products.toFinset),
          some (p.products.toFinset \ c.products.toFinset),
          some (c.products.toFinset ∩ p.products.toFinset)⟩ ∧
    (∀ r₀, (compare_products orders)[0]? = some r₀ →
      r₀.prev_products = none ∧ r₀.added = none ∧ r₀.dropped = none ∧
        r₀.unchanged = none) ∧
    (∀ r ∈ final_result orders, r.prev_products.isSome = true) := by
  refine ⟨compare_aux_get_succ orders none i p c hp hc, ?_, ?_⟩
  · intro r₀ h₀
    cases orders with
    | nil => simp [compare_products, compare_aux] at h₀
    | cons a rest =>
      have ha : r₀ = mk_compare_row none a := by
        have hz := compare_aux_get_zero none (a :: rest) a (by simp)
        rw [compare_products] at h₀
        rw [hz] at h₀
        exact (Option.some_injective _ h₀).symm
      subst ha
      exact ⟨rfl, rfl, rfl, rfl⟩
  · intro r hr
    exact (List.mem_filter.mp hr).2

/-- Witness for C6 at the spec's own example: an order of products A and B
followed by an order of products B and C gives added set C, dropped set A,
unchanged set B. -/
theorem compare_products_set_diffs_witness :
    (compare_products [⟨"c1", "n", 0, ["A", "B"]⟩, ⟨"c1", "n", 7, ["B", "C"]⟩])[1]?
      = some ⟨7, ["B", "C"], some ["A", "B"], some {"C"}, some {"A"}, some {"B"}⟩ := by
  have h := (compare_products_set_diffs
    [⟨"c1", "n", 0, ["A", "B"]⟩, ⟨"c1", "n", 7, ["B", "C"]⟩] 0
    ⟨"c1", "n", 0, ["A", "B"]⟩ ⟨"c1", "n", 7, ["B", "C"]⟩ rfl rfl).1
  rw [h]
  decide

/-- C8: frequent-itemset mining is antitone in the support threshold: within
the slider range 0.01 to 0.20, raising the threshold shrinks the returned
collection, so the itemset count never decreases when the threshold is
lowered. -/
theorem apriori_antitone (T : List (Finset String)) (s₁ s₂ : ℚ)
    (h₁ : 1/100 ≤ s₁) (h : s₁ ≤ s₂) (h₂ : s₂ ≤ 1/5) :
    apriori T s₂ ⊆ apriori T s₁ ∧ (apriori T s₂).card ≤ (apriori T s₁).card := by
  have hsub : apriori T s₂ ⊆ apriori T s₁ := by
    intro x hx
    simp only [apriori, Finset.mem_filter] at hx ⊢
    exact ⟨hx.1, hx.2.1, le_trans h hx.2.2⟩
  exact ⟨hsub, Finset.card_le_card hsub⟩

/-- Witness for C8 at a concrete two-transaction table and the extreme slider
positions 0.01 and 0.20. -/
theorem apriori_antitone_witness :
    apriori [({"A"} : Finset String), {"A", "B"}] (1/5)
      ⊆ apriori [({"A"} : Finset String), {"A", "B"}] (1/100) ∧
    (apriori [({"A"} : Finset String), {"A", "B"}] (1/5)).card
      ≤ (apriori [({"A"} : Finset String), {"A", "B"}] (1/100)).card :=
  apriori_antitone _ (1/100) (1/5) (by norm_num) (by norm_num) (by norm_num)

/-- C7 counterexample: the `length` column is recomputed by splitting the
joined display string on `", "`, so for the one-transaction table whose only
product is literally named `"A, B"`, the singleton itemset over that product
is frequent at threshold 0.05, has exactly one product, and yet IS displayed
(its computed length is 2 > 1): a size-1 itemset is not always excluded. -/
theorem singleton_with_separator_displayed :
    ({"A, B"} : Finset String) ∈ apriori [({"A, B"} : Finset String)] (1/20) ∧
    ({"A, B"} : Finset String).card = 1 ∧
    displayed ({"A, B"} : Finset String) = true := by
  refine ⟨?_, rfl, ?_⟩
  · simp [apriori, item_universe, support]
    norm_num
  · have hlab : itemset_label {"A, B"} = "A, B" := by
      rw [itemset_label, Finset.sort_singleton]
      rfl
    rw [displayed, itemset_length, hlab]
    decide

/-- C7 (amended): every frequent itemset containing exactly one product whose
name does not contain the separator `", "` is excluded from the displayed
product-combination table. -/
theorem sep_free_singleton_excluded (T : List (Finset String)) (ms : ℚ)
    (n : String) (hfreq : {n} ∈ apriori T ms) (hsep : sep_count n.toList = 0) :
    displayed {n} = false := by
  have hlab : itemset_label {n} = n := by
    rw [itemset_label, Finset.sort_singleton]
    rfl
  rw [displayed, itemset_length, hlab, py_split_len, hsep]
  decide

/-- Witness for the amended C7: the frequent singleton over the separator-free
product name `"A"` is excluded. -/
theorem sep_free_singleton_excluded_witness :
    ({"A"} : Finset String) ∈ apriori [({"A"} : Finset String)] (1/20) ∧
    displayed ({"A"} : Finset String) = false := by
  have hm : ({"A"} : Finset String) ∈ apriori [({"A"} : Finset String)] (1/20) := by
    simp [apriori, item_universe, support]
    norm_num
  exact ⟨hm, sep_free_singleton_excluded [({"A"} : Finset String)] (1/20) "A" hm
    (by decide)⟩

end DataAnalysis
